import Mathlib

/-!
Shallow embedding of `src/utils.ts` of react-native-ui-datepicker.

The source delegates calendar arithmetic to dayjs (backed by the JS `Date`
object, proleptic Gregorian).  We model a dayjs instant at minute resolution
(the module's own `CALENDAR_FORMAT` is `"YYYY-MM-DD HH:mm"`) as a normalized
civil datetime.  JS `Date.setDate` / dayjs `.date(n)` (day-of-month overflow
and underflow into adjacent months), `.day()` (weekday), `.add(n, 'month')`
(month shift with day clamping), `.daysInMonth()`, `valueOf()` (timestamp
used by `<` / `>` on dayjs objects) and `.format('YYYY-MM-DD')` are modelled
below via the standard civil-from-days / days-from-civil conversions.
-/

/-- A dayjs instant at minute resolution: normalized proleptic-Gregorian
civil date (month 1..12, day 1..daysInMonth) plus hour and minute. -/
structure DateTime where
  year : Int
  month : Nat
  day : Nat
  hour : Nat
  minute : Nat
deriving Repr, DecidableEq

/-- The record returned by `generateDayObject` (`IDayObject` in `types.ts`). -/
structure IDayObject where
  text : String
  day : Nat
  date : String
  disabled : Bool
  isCurrentMonth : Bool
deriving Repr, DecidableEq

/-- Proleptic-Gregorian leap-year rule, as implemented by the JS `Date`. -/
def isLeapYear (y : Int) : Bool :=
  (y % 4 == 0 && y % 100 != 0) || y % 400 == 0

/-- dayjs `.daysInMonth()` for a given year and 1-based month. -/
def daysInMonth (y : Int) (m : Nat) : Nat :=
  if m = 2 then (if isLeapYear y then 29 else 28)
  else if m = 4 ∨ m = 6 ∨ m = 9 ∨ m = 11 then 30
  else 31

/-- Days since 1970-01-01 of civil date `(y, m, d)`; `d` may lie outside
`1..daysInMonth` (the count is affine in `d`), matching how JS `Date`
arithmetic addresses days of adjacent months.  Standard civil-calendar
conversion with truncating integer division. -/
def daysFromCivil (y : Int) (m : Nat) (d : Int) : Int :=
  let y' : Int := if m ≤ 2 then y - 1 else y
  let era : Int := (if 0 ≤ y' then y' else y' - 399) / 400
  let yoe : Int := y' - era * 400
  let mp : Int := if 2 < m then (m : Int) - 3 else (m : Int) + 9
  let doy : Int := (153 * mp + 2) / 5 + d - 1
  let doe : Int := yoe * 365 + yoe / 4 - yoe / 100 + doy
  era * 146097 + doe - 719468

/-- Inverse of `daysFromCivil`: the normalized civil date of a day count.
Returns `(year, month, day)` with month 1..12. -/
def civilFromDays (z0 : Int) : Int × Nat × Nat :=
  let z : Int := z0 + 719468
  let era : Int := (if 0 ≤ z then z else z - 146096) / 146097
  let doe : Int := z - era * 146097
  let yoe : Int := (doe - doe / 1460 + doe / 36524 - doe / 146096) / 365
  let y : Int := yoe + era * 400
  let doy : Int := doe - (365 * yoe + yoe / 4 - yoe / 100)
  let mp : Int := (5 * doy + 2) / 153
  let d : Int := doy - (153 * mp + 2) / 5 + 1
  let m : Int := if mp < 10 then mp + 3 else mp - 9
  (if m ≤ 2 then y + 1 else y, m.toNat, d.toNat)

/-- dayjs `.date(n)` / JS `Date.setDate(n)`: set the day-of-month, with
values outside `1..daysInMonth` overflowing into adjacent months.  For an
in-range `n` this is the same year and month with day `n`; otherwise the
date is renormalized through the epoch-day count.  Hour and minute are
preserved. -/
def dateSetDay (dt : DateTime) (n : Int) : DateTime :=
  if 1 ≤ n ∧ n ≤ (daysInMonth dt.year dt.month : Int) then
    ⟨dt.year, dt.month, n.toNat, dt.hour, dt.minute⟩
  else
    let c := civilFromDays (daysFromCivil dt.year dt.month n)
    ⟨c.1, c.2.1, c.2.2, dt.hour, dt.minute⟩

/-- dayjs `.day()`: weekday index 0 (Sunday) .. 6 (Saturday).
1970-01-01 was a Thursday (index 4). -/
def weekdayOf (dt : DateTime) : Nat :=
  ((daysFromCivil dt.year dt.month (dt.day : Int) + 4) % 7).toNat

/-- Year and 1-based month shifted by `n` months (JS `Date.setMonth`
wraparound semantics, floor division). -/
def addMonthsYM (y : Int) (m : Nat) (n : Int) : Int × Nat :=
  let t : Int := 12 * y + ((m : Int) - 1) + n
  let m2 : Int := t % 12
  ((t - m2) / 12, m2.toNat + 1)

/-- dayjs `.add(n, 'month')`: shift by `n` months, clamping the day-of-month
to the length of the target month (dayjs sets the day to 1, moves the month,
then restores `min(day, daysInMonth)`). -/
def addMonths (dt : DateTime) (n : Int) : DateTime :=
  let ym := addMonthsYM dt.year dt.month n
  ⟨ym.1, ym.2, min dt.day (daysInMonth ym.1 ym.2), dt.hour, dt.minute⟩

/-- dayjs `valueOf()` at minute resolution: minutes since the epoch.  JS
`<` / `>` on dayjs objects compares these timestamps. -/
def timeValue (dt : DateTime) : Int :=
  daysFromCivil dt.year dt.month (dt.day : Int) * 1440
    + (dt.hour : Int) * 60 + (dt.minute : Int)

/-- `date_a < date_b` on dayjs objects (timestamp comparison). -/
def dtBefore (a b : DateTime) : Bool :=
  decide (timeValue a < timeValue b)

/-- `date_a > date_b` on dayjs objects (timestamp comparison). -/
def dtAfter (a b : DateTime) : Bool :=
  decide (timeValue b < timeValue a)

/-- Left-pad a string with zeros to width `w`. -/
def padZeros (w : Nat) (s : String) : String :=
  String.mk (List.replicate (w - s.length) '0') ++ s

/-- A natural number printed in decimal, zero-padded to width `w`. -/
def formatNat (w n : Nat) : String :=
  padZeros w (toString n)

/-- A year formatted by the dayjs `YYYY` token (zero-padded to 4 digits). -/
def formatYear (y : Int) : String :=
  if y < 0 then "-" ++ formatNat 4 (-y).toNat else formatNat 4 y.toNat

/-- `dayjs(...).format(DATE_FORMAT)` with `DATE_FORMAT = "YYYY-MM-DD"`. -/
def formatDate (dt : DateTime) : String :=
  formatYear dt.year ++ "-" ++ formatNat 2 dt.month ++ "-" ++ formatNat 2 dt.day

/-- `YEAR_PAGE_SIZE` from `utils.ts`. -/
def YEAR_PAGE_SIZE : Nat := 10

/-- `getWeekdaysMin` from `utils.ts`: the locale's minimal weekday names
(`dayjs.weekdaysMin()`, always 7 entries, passed here as an argument),
sliced and recombined at `firstDayOfWeek` when it is positive. -/
def getWeekdaysMin (weekdaysMin : List String) (firstDayOfWeek : Nat) : List String :=
  if 0 < firstDayOfWeek then
    weekdaysMin.drop firstDayOfWeek ++ weekdaysMin.take firstDayOfWeek
  else weekdaysMin

/-- `getWeekdays` from `utils.ts`: returns `dayjs.weekdays()` unchanged. -/
def getWeekdays (weekdays : List String) : List String := weekdays

/-- `getWeekdaysShort` from `utils.ts`: returns `dayjs.weekdaysShort()`
unchanged. -/
def getWeekdaysShort (weekdaysShort : List String) : List String := weekdaysShort

/-- `areDatesOnSameDay` from `utils.ts`: `false` when either input is
absent, else equality of the two `"YYYY-MM-DD"` format strings. -/
def areDatesOnSameDay (a b : Option DateTime) : Bool :=
  match a, b with
  | some x, some y => formatDate x == formatDate y
  | _, _ => false

/-- `getYearRange` from `utils.ts`.  `endYear`/`startYear` are the calendar
years of `maxDate`/`minDate` (`parseInt` of the `YYYY` format), `startYear`
clamped to 0 when negative; `Array.from` with a negative length yields the
empty array, modelled by `Int.toNat`. -/
def getYearRange (_year : Int) (maxDate minDate : DateTime) : List Int :=
  let endYear : Int := maxDate.year
  let startYear0 : Int := minDate.year
  let startYear : Int := if startYear0 < 0 then 0 else startYear0
  let len : Int := if 12 < endYear - startYear then (YEAR_PAGE_SIZE : Int)
                   else endYear - startYear + 1
  (List.range len.toNat).map (fun (i : Nat) => startYear + (i : Int))

/-- `generateDayObject` from `utils.ts`: builds one day cell.  `disabled`
starts from `date < minDate` when `minDate` is supplied, and when still
false becomes `date > maxDate` when `maxDate` is supplied; both comparisons
are dayjs object comparisons, i.e. timestamp comparisons. -/
def generateDayObject (day : Nat) (date : DateTime)
    (minDate maxDate : Option DateTime) (isCurrentMonth : Bool) : IDayObject :=
  let disabled : Bool :=
    match minDate with
    | some mn => dtBefore date mn
    | none => false
  let disabled2 : Bool :=
    match maxDate with
    | some mx => if !disabled then dtAfter date mx else disabled
    | none => disabled
  { text := toString day
    day := day
    date := formatDate date
    disabled := disabled2
    isCurrentMonth := isCurrentMonth }

/-- The lead offset of `getMonthDays`: the weekday of
`date.date(1 - firstDayOfWeek)`, reduced `% 7` as in the source
(`const dayOfMonth = firstDay.day() % 7`). -/
def monthLeadOffset (date : DateTime) (firstDayOfWeek : Nat) : Nat :=
  weekdayOf (dateSetDay date (1 - (firstDayOfWeek : Int))) % 7

/-- `getMonthDays` from `utils.ts`: the month grid.  `none` entries are the
`null` placeholders produced when `displayFullDays` is false. -/
def getMonthDays (datetime : DateTime) (displayFullDays : Bool)
    (minimumDate maximumDate : Option DateTime) (firstDayOfWeek : Nat) :
    List (Option IDayObject) :=
  let date := datetime
  let daysInM := daysInMonth date.year date.month
  let prevMonthDays :=
    daysInMonth (addMonths date (-1)).year (addMonths date (-1)).month
  let dayOfMonth := monthLeadOffset date firstDayOfWeek
  let prevDays : List (Option IDayObject) :=
    if displayFullDays then
      (List.range dayOfMonth).map (fun i =>
        let day : Nat := i + (prevMonthDays - dayOfMonth + 1)
        let thisDay := dateSetDay (addMonths date (-1)) (day : Int)
        some (generateDayObject day thisDay minimumDate maximumDate false))
    else List.replicate dayOfMonth none
  let monthDaysOffset := dayOfMonth + daysInM
  let nextMonthDays :=
    if displayFullDays then
      (if 35 < monthDaysOffset then 42 - monthDaysOffset
       else 35 - monthDaysOffset)
    else 0
  let currentDays : List (Option IDayObject) :=
    (List.range daysInM).map (fun i =>
      let day : Nat := i + 1
      let thisDay := dateSetDay date (day : Int)
      some (generateDayObject day thisDay minimumDate maximumDate true))
  let nextDays : List (Option IDayObject) :=
    (List.range nextMonthDays).map (fun i =>
      let day : Nat := i + 1
      let thisDay := dateSetDay (addMonths date 1) (day : Int)
      some (generateDayObject day thisDay minimumDate maximumDate false))
  prevDays ++ currentDays ++ nextDays

/-- Year and month of the previous month of the reference date. -/
def prevYM (dt : DateTime) : Int × Nat := addMonthsYM dt.year dt.month (-1)

/-- Year and month of the month after the reference date. -/
def nextYM (dt : DateTime) : Int × Nat := addMonthsYM dt.year dt.month 1

/-- The number of trailing next-month cells of the full-days grid. -/
def trailingCount (dt : DateTime) (f : Nat) : Nat :=
  if 35 < monthLeadOffset dt f + daysInMonth dt.year dt.month then
    42 - (monthLeadOffset dt f + daysInMonth dt.year dt.month)
  else 35 - (monthLeadOffset dt f + daysInMonth dt.year dt.month)

/-- Spec-side description of the leading region of the full-days grid: the
last `monthLeadOffset` days of the previous month, in ascending order, as
non-current-month cells carrying the reference's hour and minute. -/
def leadingCellsSpec (dt : DateTime) (minD maxD : Option DateTime) (f : Nat) :
    List (Option IDayObject) :=
  (List.range (monthLeadOffset dt f)).map (fun i =>
    some (generateDayObject
      (i + (daysInMonth (prevYM dt).1 (prevYM dt).2 - monthLeadOffset dt f + 1))
      ⟨(prevYM dt).1, (prevYM dt).2,
        i + (daysInMonth (prevYM dt).1 (prevYM dt).2 - monthLeadOffset dt f + 1),
        dt.hour, dt.minute⟩ minD maxD false))

/-- Spec-side description of the current-month region: days
`1..daysInMonth` of the reference month as current-month cells. -/
def currentCellsSpec (dt : DateTime) (minD maxD : Option DateTime) :
    List (Option IDayObject) :=
  (List.range (daysInMonth dt.year dt.month)).map (fun i =>
    some (generateDayObject (i + 1)
      ⟨dt.year, dt.month, i + 1, dt.hour, dt.minute⟩ minD maxD true))

/-- Spec-side description of the trailing region of the full-days grid: the
first `trailingCount` days of the next month as non-current-month cells. -/
def trailingCellsSpec (dt : DateTime) (minD maxD : Option DateTime) (f : Nat) :
    List (Option IDayObject) :=
  (List.range (trailingCount dt f)).map (fun i =>
    some (generateDayObject (i + 1)
      ⟨(nextYM dt).1, (nextYM dt).2, i + 1, dt.hour, dt.minute⟩ minD maxD false))

example : weekdayOf ⟨2024, 2, 1, 0, 0⟩ = 4 := by decide
example : monthLeadOffset ⟨2024, 2, 1, 0, 0⟩ 0 = 4 := by decide
example : monthLeadOffset ⟨2024, 3, 15, 12, 0⟩ 0 = 5 := by decide
example : formatDate ⟨2024, 3, 10, 13, 0⟩ = "2024-03-10" := by decide
example : (getMonthDays ⟨2024, 2, 1, 0, 0⟩ true none none 0).length = 35 := by decide

/-- Every month has at least 28 days. -/
theorem daysInMonth_ge (y : Int) (m : Nat) : 28 ≤ daysInMonth y m := by
  unfold daysInMonth
  split_ifs <;> omega

/-- Every month has at most 31 days. -/
theorem daysInMonth_le (y : Int) (m : Nat) : daysInMonth y m ≤ 31 := by
  unfold daysInMonth
  split_ifs <;> omega

/-- The lead offset is a weekday count below 7. -/
theorem monthLeadOffset_lt (dt : DateTime) (f : Nat) : monthLeadOffset dt f < 7 :=
  Nat.mod_lt _ (by omega)

/-- Setting an in-range day-of-month keeps the year and month and just
replaces the day. -/
theorem dateSetDay_valid (dt : DateTime) (d : Nat) (h1 : 1 ≤ d)
    (h2 : d ≤ daysInMonth dt.year dt.month) :
    dateSetDay dt (d : Int) = ⟨dt.year, dt.month, d, dt.hour, dt.minute⟩ := by
  unfold dateSetDay
  rw [if_pos]
  · simp
  · exact ⟨by omega, by omega⟩

/-- Setting an in-range day-of-month on a literal datetime. -/
theorem dateSetDay_valid' (y : Int) (m : Nat) (d0 hr mi : Nat) (d : Nat)
    (h1 : 1 ≤ d) (h2 : d ≤ daysInMonth y m) :
    dateSetDay ⟨y, m, d0, hr, mi⟩ (d : Int) = ⟨y, m, d, hr, mi⟩ :=
  dateSetDay_valid ⟨y, m, d0, hr, mi⟩ d h1 h2

/-- The full-days grid never needs more than 7 trailing cells. -/
theorem trailingCount_le (dt : DateTime) (f : Nat) : trailingCount dt f ≤ 7 := by
  have h := daysInMonth_ge dt.year dt.month
  unfold trailingCount
  split_ifs <;> omega

/-- Structure of the full-days grid: the last `monthLeadOffset` days of the
previous month, then days `1..daysInMonth` of the reference month, then the
first `trailingCount` days of the next month, all built by
`generateDayObject` on dates that carry the reference's hour and minute. -/
theorem getMonthDays_full_eq (dt : DateTime) (minD maxD : Option DateTime) (f : Nat) :
    getMonthDays dt true minD maxD f =
      leadingCellsSpec dt minD maxD f
      ++ currentCellsSpec dt minD maxD
      ++ trailingCellsSpec dt minD maxD f := by
  have hL := monthLeadOffset_lt dt f
  have hP := daysInMonth_ge (prevYM dt).1 (prevYM dt).2
  have hC := daysInMonth_ge dt.year dt.month
  have hN28 := daysInMonth_ge (nextYM dt).1 (nextYM dt).2
  have hT := trailingCount_le dt f
  simp only [getMonthDays, addMonths, prevYM, nextYM, trailingCount,
    leadingCellsSpec, currentCellsSpec, trailingCellsSpec,
    monthLeadOffset, if_true] at *
  congr 1
  · congr 1
    · apply List.map_congr_left
      intro i hi
      rw [List.mem_range] at hi
      rw [dateSetDay_valid' _ _ _ _ _ _ (by omega) (by omega)]
    · apply List.map_congr_left
      intro i hi
      rw [List.mem_range] at hi
      rw [dateSetDay_valid _ _ (by omega) (by omega)]
  · apply List.map_congr_left
    intro i hi
    rw [List.mem_range] at hi
    rw [dateSetDay_valid' _ _ _ _ _ _ (by omega) (by omega)]

/-- Structure of the grid when `displayFullDays` is false: `monthLeadOffset`
null placeholders followed by the current-month cells, and nothing else. -/
theorem getMonthDays_noFull_eq (dt : DateTime) (minD maxD : Option DateTime) (f : Nat) :
    getMonthDays dt false minD maxD f =
      List.replicate (monthLeadOffset dt f) none ++ currentCellsSpec dt minD maxD := by
  have hC := daysInMonth_ge dt.year dt.month
  simp only [getMonthDays, addMonths, monthLeadOffset, currentCellsSpec,
    if_false, Bool.false_eq_true, List.range_zero, List.map_nil, List.append_nil]
  congr 1
  apply List.map_congr_left
  intro i hi
  rw [List.mem_range] at hi
  rw [dateSetDay_valid _ _ (by omega) (by omega)]

/-- C7: `getWeekdaysMin` returns the minimal weekday-name list unchanged for
`firstDayOfWeek = 0` and rotated left by `firstDayOfWeek` positions for
values in `[1,6]`, while `getWeekdays` and `getWeekdaysShort` never rotate
their lists. -/
theorem claim_C7 (days : List String) (f : Nat) (hlen : days.length = 7) :
    getWeekdaysMin days 0 = days ∧
    (1 ≤ f → f ≤ 6 → getWeekdaysMin days f = days.rotate f) ∧
    getWeekdays days = days ∧
    getWeekdaysShort days = days := by
  refine ⟨by simp [getWeekdaysMin], fun h1 h6 => ?_, rfl, rfl⟩
  rw [getWeekdaysMin, if_pos (by omega),
    List.rotate_eq_drop_append_take (by omega)]

/-- Witness for C7 at the example input: rotating the 7-element minimal
weekday list `[S,M,T,W,T,F,S]` left by 2 gives `[T,W,T,F,S,S,M]`. -/
theorem claim_C7_witness :
    getWeekdaysMin ["S", "M", "T", "W", "T", "F", "S"] 2 =
      (["S", "M", "T", "W", "T", "F", "S"] : List String).rotate 2 ∧
    (["S", "M", "T", "W", "T", "F", "S"] : List String).rotate 2 =
      ["T", "W", "T", "F", "S", "S", "M"] :=
  ⟨(claim_C7 ["S", "M", "T", "W", "T", "F", "S"] 2 (by decide)).2.1
      (by decide) (by decide),
   by decide⟩

/-- C8: `areDatesOnSameDay` returns `false` whenever either input is
absent, and otherwise returns `true` iff the two inputs format to the same
`"YYYY-MM-DD"` string. -/
theorem claim_C8 (a b : Option DateTime) :
    ((a = none ∨ b = none) → areDatesOnSameDay a b = false) ∧
    (∀ x y, a = some x → b = some y →
      (areDatesOnSameDay a b = true ↔ formatDate x = formatDate y)) := by
  constructor
  · rintro (rfl | rfl)
    · rfl
    · cases a <;> rfl
  · rintro x y rfl rfl
    simp [areDatesOnSameDay]

/-- Witness for C8: an absent second input yields `false`. -/
theorem claim_C8_witness :
    areDatesOnSameDay (some ⟨2024, 1, 1, 0, 0⟩) none = false :=
  (claim_C8 (some ⟨2024, 1, 1, 0, 0⟩) none).1 (Or.inr rfl)

/-- C9: when `maxDate`'s calendar year is strictly below `minDate`'s
clamped calendar year, `getYearRange` returns the empty sequence. -/
theorem claim_C9 (y : Int) (maxD minD : DateTime)
    (h : maxD.year < (if minD.year < 0 then 0 else minD.year)) :
    getYearRange y maxD minD = [] := by
  simp only [getYearRange]
  rw [if_neg (show ¬(12 < maxD.year - (if minD.year < 0 then 0 else minD.year)) by omega)]
  have hz : (maxD.year - (if minD.year < 0 then 0 else minD.year) + 1).toNat = 0 := by
    omega
  rw [hz]
  simp

/-- Witness for C9: `maxDate` year 1999 against `minDate` year 2005 gives
the empty range. -/
theorem claim_C9_witness :
    getYearRange 0 ⟨1999, 1, 1, 0, 0⟩ ⟨2005, 1, 1, 0, 0⟩ = [] :=
  claim_C9 0 ⟨1999, 1, 1, 0, 0⟩ ⟨2005, 1, 1, 0, 0⟩ (by decide)

/-- C5 counterexample: with `minDate` year 2010 and `maxDate` year 2000 the
code returns the empty list, not a list of `endYear - startYear + 1 = -9`
consecutive years as the claim's "otherwise" branch states. -/
theorem claim_C5_counterexample :
    getYearRange 0 ⟨2000, 1, 1, 0, 0⟩ ⟨2010, 1, 1, 0, 0⟩ = [] ∧
    ((getYearRange 0 ⟨2000, 1, 1, 0, 0⟩ ⟨2010, 1, 1, 0, 0⟩).length : Int) ≠
      2000 - 2010 + 1 := by
  constructor
  · decide
  · decide

/-- C5 (amended): `getYearRange` starts at `minDate`'s year clamped to 0;
when `endYear - startYear > 12` it returns exactly 10 consecutive ascending
years from `startYear`, and otherwise exactly
`max 0 (endYear - startYear + 1)` consecutive ascending years from
`startYear` (the count clamps to zero when `endYear` precedes
`startYear`). -/
theorem claim_C5_amended (y : Int) (maxD minD : DateTime) :
    (getYearRange y maxD minD).length =
      (if 12 < maxD.year - (if minD.year < 0 then 0 else minD.year) then 10
       else (maxD.year - (if minD.year < 0 then 0 else minD.year) + 1).toNat) ∧
    (∀ i : Nat, i < (getYearRange y maxD minD).length →
      (getYearRange y maxD minD)[i]? =
        some ((if minD.year < 0 then 0 else minD.year) + (i : Int))) := by
  constructor
  · simp only [getYearRange, List.length_map, List.length_range]
    split_ifs <;> rfl
  · intro i hi
    simp only [getYearRange, List.length_map, List.length_range] at hi
    simp only [getYearRange, List.getElem?_map, List.getElem?_range, hi,
      if_pos]
    rfl

/-- Witness for C5 at the example input: `minDate` year 2000, `maxDate`
year 2030, span 30 > 12, so 10 years starting at 2000; element 3 is
2003. -/
theorem claim_C5_amended_witness :
    (getYearRange 0 ⟨2030, 1, 1, 0, 0⟩ ⟨2000, 1, 1, 0, 0⟩).length = 10 ∧
    (getYearRange 0 ⟨2030, 1, 1, 0, 0⟩ ⟨2000, 1, 1, 0, 0⟩)[3]? = some 2003 := by
  have h := claim_C5_amended 0 ⟨2030, 1, 1, 0, 0⟩ ⟨2000, 1, 1, 0, 0⟩
  refine ⟨?_, ?_⟩
  · rw [h.1]; decide
  · have := h.2 3 (by rw [h.1]; decide)
    simpa using this

/-- C2: with `displayFullDays = true` the grid length is 35 when
`monthLeadOffset + daysInMonth ≤ 35` and 42 otherwise, hence always a
multiple of 7 in {35, 42}. -/
theorem claim_C2 (dt : DateTime) (minD maxD : Option DateTime) (f : Nat)
    (hf : f ≤ 6) :
    (getMonthDays dt true minD maxD f).length =
      (if monthLeadOffset dt f + daysInMonth dt.year dt.month ≤ 35 then 35
       else 42) ∧
    (getMonthDays dt true minD maxD f).length % 7 = 0 := by
  have hL := monthLeadOffset_lt dt f
  have hC := daysInMonth_ge dt.year dt.month
  have hC' := daysInMonth_le dt.year dt.month
  rw [getMonthDays_full_eq]
  simp only [leadingCellsSpec, currentCellsSpec, trailingCellsSpec,
    List.length_append, List.length_map, List.length_range]
  unfold trailingCount
  constructor
  · split_ifs <;> omega
  · split_ifs <;> omega

/-- Witness for C2 at the example input: reference 2024-02-01 (leap year,
29 days), `firstDayOfWeek = 0`, lead offset 4, grid length 35. -/
theorem claim_C2_witness :
    monthLeadOffset ⟨2024, 2, 1, 0, 0⟩ 0 = 4 ∧
    ((getMonthDays ⟨2024, 2, 1, 0, 0⟩ true none none 0).length =
      (if monthLeadOffset ⟨2024, 2, 1, 0, 0⟩ 0 + daysInMonth 2024 2 ≤ 35
       then 35 else 42) ∧
     (getMonthDays ⟨2024, 2, 1, 0, 0⟩ true none none 0).length % 7 = 0) :=
  ⟨by decide, claim_C2 ⟨2024, 2, 1, 0, 0⟩ none none 0 (by decide)⟩

/-- The `disabled` flag of a generated cell is true exactly when the cell's
datetime is strictly before the supplied minimum or strictly after the
supplied maximum, as timestamps. -/
theorem generateDayObject_disabled_iff (day : Nat) (date : DateTime)
    (minD maxD : Option DateTime) (icm : Bool) :
    (generateDayObject day date minD maxD icm).disabled = true ↔
      ((∃ mn, minD = some mn ∧ timeValue date < timeValue mn) ∨
       (∃ mx, maxD = some mx ∧ timeValue mx < timeValue date)) := by
  cases minD with
  | none =>
    cases maxD with
    | none => simp [generateDayObject]
    | some mx => simp [generateDayObject, dtAfter]
  | some mn =>
    cases maxD with
    | none => simp [generateDayObject, dtBefore]
    | some mx =>
      by_cases h : timeValue date < timeValue mn <;>
        simp [generateDayObject, dtBefore, dtAfter, h]

/-- Each generated cell is described by its underlying datetime: the `day`
field is the datetime's day, the `date` field its `"YYYY-MM-DD"` format,
and `disabled` the timestamp range check. -/
theorem generateDayObject_cell (day : Nat) (u : DateTime)
    (minD maxD : Option DateTime) (icm : Bool) (hday : u.day = day) :
    ∃ v : DateTime,
      v.day = (generateDayObject day u minD maxD icm).day ∧
      v.hour = u.hour ∧ v.minute = u.minute ∧
      (generateDayObject day u minD maxD icm).date = formatDate v ∧
      ((generateDayObject day u minD maxD icm).disabled = true ↔
        ((∃ mn, minD = some mn ∧ timeValue v < timeValue mn) ∨
         (∃ mx, maxD = some mx ∧ timeValue mx < timeValue v))) :=
  ⟨u, hday, rfl, rfl, rfl, generateDayObject_disabled_iff day u minD maxD icm⟩

/-- C1 (amended): for every day cell produced by `getMonthDays`, `disabled`
is true iff the cell's underlying datetime — which carries the reference's
hour and minute — is strictly before `minimumDate` or strictly after
`maximumDate` as timestamps (instant comparison, not day granularity). -/
theorem claim_C1_amended (dt : DateTime) (dfd : Bool)
    (minD maxD : Option DateTime) (f : Nat) (c : IDayObject)
    (hc : some c ∈ getMonthDays dt dfd minD maxD f) :
    ∃ u : DateTime, u.day = c.day ∧ u.hour = dt.hour ∧ u.minute = dt.minute ∧
      c.date = formatDate u ∧
      (c.disabled = true ↔
        ((∃ mn, minD = some mn ∧ timeValue u < timeValue mn) ∨
         (∃ mx, maxD = some mx ∧ timeValue mx < timeValue u))) := by
  cases dfd with
  | false =>
    rw [getMonthDays_noFull_eq] at hc
    rcases List.mem_append.1 hc with h | h
    · exact absurd (List.eq_of_mem_replicate h) (by simp)
    · simp only [currentCellsSpec] at h
      rcases List.mem_map.1 h with ⟨i, _, hEq⟩
      injection hEq with hEq
      subst hEq
      exact generateDayObject_cell _ _ minD maxD true rfl
  | true =>
    rw [getMonthDays_full_eq] at hc
    rcases List.mem_append.1 hc with h | h
    · rcases List.mem_append.1 h with h1 | h1
      · simp only [leadingCellsSpec] at h1
        rcases List.mem_map.1 h1 with ⟨i, _, hEq⟩
        injection hEq with hEq
        subst hEq
        exact generateDayObject_cell _ _ minD maxD false rfl
      · simp only [currentCellsSpec] at h1
        rcases List.mem_map.1 h1 with ⟨i, _, hEq⟩
        injection hEq with hEq
        subst hEq
        exact generateDayObject_cell _ _ minD maxD true rfl
    · simp only [trailingCellsSpec] at h
      rcases List.mem_map.1 h with ⟨i, _, hEq⟩
      injection hEq with hEq
      subst hEq
      exact generateDayObject_cell _ _ minD maxD false rfl

/-- C1 counterexample: reference 2024-03-15 12:00 with
`minimumDate = 2024-03-10 13:00`.  The cell for March 10 (grid index 14
with `firstDayOfWeek = 0`) formats to the same `"2024-03-10"` calendar
date as the minimum bound, yet is disabled, because 12:00 is an earlier
instant than the bound's 13:00 — the comparison is on timestamps, not on
calendar days. -/
theorem claim_C1_counterexample :
    (getMonthDays ⟨2024, 3, 15, 12, 0⟩ false (some ⟨2024, 3, 10, 13, 0⟩)
        none 0)[14]? =
      some (some { text := "10", day := 10, date := "2024-03-10",
                   disabled := true, isCurrentMonth := true }) ∧
    formatDate ⟨2024, 3, 10, 13, 0⟩ = "2024-03-10" :=
  ⟨by decide, by decide⟩

/-- Witness for C1 (amended) at the counterexample grid: the March 10 cell
is disabled because its instant 2024-03-10 12:00 is before the minimum
bound 2024-03-10 13:00. -/
theorem claim_C1_amended_witness :
    ∃ u : DateTime, u.day = 10 ∧ u.hour = 12 ∧ u.minute = 0 ∧
      "2024-03-10" = formatDate u ∧
      (true = true ↔
        ((∃ mn, (some (⟨2024, 3, 10, 13, 0⟩ : DateTime)) = some mn ∧
            timeValue u < timeValue mn) ∨
         (∃ mx, (none : Option DateTime) = some mx ∧
            timeValue mx < timeValue u))) :=
  claim_C1_amended ⟨2024, 3, 15, 12, 0⟩ false (some ⟨2024, 3, 10, 13, 0⟩)
    none 0
    { text := "10", day := 10, date := "2024-03-10",
      disabled := true, isCurrentMonth := true }
    (by decide)

/-- C3: with `displayFullDays = true` the grid is the concatenation of the
last `monthLeadOffset` days of the previous month (ascending,
non-current-month), days `1..daysInMonth` of the reference month
(current-month), and the first `trailingCount` days of the next month
(non-current-month). -/
theorem claim_C3 (dt : DateTime) (minD maxD : Option DateTime) (f : Nat)
    (hf : f ≤ 6) :
    getMonthDays dt true minD maxD f =
      leadingCellsSpec dt minD maxD f ++ currentCellsSpec dt minD maxD ++
        trailingCellsSpec dt minD maxD f :=
  getMonthDays_full_eq dt minD maxD f

/-- Witness for C3: February 2024 with `firstDayOfWeek = 1` has a leading
region of 3 previous-month cells. -/
theorem claim_C3_witness :
    (leadingCellsSpec ⟨2024, 2, 1, 9, 30⟩ none none 1).length = 3 ∧
    getMonthDays ⟨2024, 2, 1, 9, 30⟩ true none none 1 =
      leadingCellsSpec ⟨2024, 2, 1, 9, 30⟩ none none 1 ++
        currentCellsSpec ⟨2024, 2, 1, 9, 30⟩ none none ++
        trailingCellsSpec ⟨2024, 2, 1, 9, 30⟩ none none 1 :=
  ⟨by decide, claim_C3 ⟨2024, 2, 1, 9, 30⟩ none none 1 (by decide)⟩

/-- C4: with `displayFullDays = false` the grid is `monthLeadOffset` null
placeholders followed by the current-month cells: its length is
`monthLeadOffset + daysInMonth`, its first `monthLeadOffset` entries are
null, and no trailing next-month cells are produced. -/
theorem claim_C4 (dt : DateTime) (minD maxD : Option DateTime) (f : Nat)
    (hf : f ≤ 6) :
    getMonthDays dt false minD maxD f =
      List.replicate (monthLeadOffset dt f) none ++
        currentCellsSpec dt minD maxD ∧
    (getMonthDays dt false minD maxD f).length =
      monthLeadOffset dt f + daysInMonth dt.year dt.month ∧
    ∀ i, i < monthLeadOffset dt f →
      (getMonthDays dt false minD maxD f)[i]? = some none := by
  refine ⟨getMonthDays_noFull_eq dt minD maxD f, ?_, ?_⟩
  · rw [getMonthDays_noFull_eq]
    simp [currentCellsSpec]
  · intro i hi
    rw [getMonthDays_noFull_eq]
    simp [List.getElem?_append, List.getElem?_replicate, hi]

/-- Witness for C4 at reference 2024-02-01 with `firstDayOfWeek = 0`. -/
theorem claim_C4_witness :
    getMonthDays ⟨2024, 2, 1, 0, 0⟩ false none none 0 =
      List.replicate (monthLeadOffset ⟨2024, 2, 1, 0, 0⟩ 0) none ++
        currentCellsSpec ⟨2024, 2, 1, 0, 0⟩ none none ∧
    (getMonthDays ⟨2024, 2, 1, 0, 0⟩ false none none 0).length =
      monthLeadOffset ⟨2024, 2, 1, 0, 0⟩ 0 + daysInMonth 2024 2 ∧
    ∀ i, i < monthLeadOffset ⟨2024, 2, 1, 0, 0⟩ 0 →
      (getMonthDays ⟨2024, 2, 1, 0, 0⟩ false none none 0)[i]? = some none :=
  claim_C4 ⟨2024, 2, 1, 0, 0⟩ none none 0 (by decide)

/-- C6: every non-placeholder cell has `text` equal to the decimal string
of its `day` field, and `date` equal to the `"YYYY-MM-DD"` format of day
`day` of the month corresponding to the cell's region (the reference month
for current-month cells, the previous or next month otherwise), with `day`
a valid 1-based day of that month. -/
theorem claim_C6 (dt : DateTime) (dfd : Bool) (minD maxD : Option DateTime)
    (f : Nat) (c : IDayObject) (hc : some c ∈ getMonthDays dt dfd minD maxD f) :
    c.text = toString c.day ∧
    ∃ y m, c.date = formatDate ⟨y, m, c.day, dt.hour, dt.minute⟩ ∧
      1 ≤ c.day ∧ c.day ≤ daysInMonth y m ∧
      (c.isCurrentMonth = true → (y, m) = (dt.year, dt.month)) ∧
      (c.isCurrentMonth = false → (y, m) = prevYM dt ∨ (y, m) = nextYM dt) := by
  have hL := monthLeadOffset_lt dt f
  have hP := daysInMonth_ge (prevYM dt).1 (prevYM dt).2
  have hN := daysInMonth_ge (nextYM dt).1 (nextYM dt).2
  cases dfd with
  | false =>
    rw [getMonthDays_noFull_eq] at hc
    rcases List.mem_append.1 hc with h | h
    · exact absurd (List.eq_of_mem_replicate h) (by simp)
    · simp only [currentCellsSpec] at h
      rcases List.mem_map.1 h with ⟨i, hi, hEq⟩
      rw [List.mem_range] at hi
      injection hEq with hEq
      subst hEq
      refine ⟨rfl, dt.year, dt.month, rfl, ?_, ?_, fun _ => rfl, ?_⟩
      · show 1 ≤ i + 1
        omega
      · show i + 1 ≤ daysInMonth dt.year dt.month
        omega
      · intro hcm
        simp [generateDayObject] at hcm
  | true =>
    rw [getMonthDays_full_eq] at hc
    rcases List.mem_append.1 hc with h | h
    · rcases List.mem_append.1 h with h1 | h1
      · simp only [leadingCellsSpec] at h1
        rcases List.mem_map.1 h1 with ⟨i, hi, hEq⟩
        rw [List.mem_range] at hi
        injection hEq with hEq
        subst hEq
        refine ⟨rfl, (prevYM dt).1, (prevYM dt).2, rfl, ?_, ?_, ?_,
          fun _ => Or.inl rfl⟩
        · show 1 ≤ i + (daysInMonth (prevYM dt).1 (prevYM dt).2 -
            monthLeadOffset dt f + 1)
          omega
        · show i + (daysInMonth (prevYM dt).1 (prevYM dt).2 -
            monthLeadOffset dt f + 1) ≤ daysInMonth (prevYM dt).1 (prevYM dt).2
          omega
        · intro hcm
          simp [generateDayObject] at hcm
      · simp only [currentCellsSpec] at h1
        rcases List.mem_map.1 h1 with ⟨i, hi, hEq⟩
        rw [List.mem_range] at hi
        injection hEq with hEq
        subst hEq
        refine ⟨rfl, dt.year, dt.month, rfl, ?_, ?_, fun _ => rfl, ?_⟩
        · show 1 ≤ i + 1
          omega
        · show i + 1 ≤ daysInMonth dt.year dt.month
          omega
        · intro hcm
          simp [generateDayObject] at hcm
    · simp only [trailingCellsSpec] at h
      rcases List.mem_map.1 h with ⟨i, hi, hEq⟩
      rw [List.mem_range] at hi
      injection hEq with hEq
      subst hEq
      have hT := trailingCount_le dt f
      refine ⟨rfl, (nextYM dt).1, (nextYM dt).2, rfl, ?_, ?_, ?_,
        fun _ => Or.inr rfl⟩
      · show 1 ≤ i + 1
        omega
      · show i + 1 ≤ daysInMonth (nextYM dt).1 (nextYM dt).2
        omega
      · intro hcm
        simp [generateDayObject] at hcm

/-- Witness for C6: the first-of-month cell of the February 2024 full
grid. -/
theorem claim_C6_witness :
    some { text := "1", day := 1, date := "2024-02-01",
           disabled := false, isCurrentMonth := true } ∈
      getMonthDays ⟨2024, 2, 1, 0, 0⟩ true none none 0 ∧
    ({ text := "1", day := 1, date := "2024-02-01", disabled := false,
       isCurrentMonth := true } : IDayObject).text = toString
      ({ text := "1", day := 1, date := "2024-02-01", disabled := false,
         isCurrentMonth := true } : IDayObject).day ∧
    ∃ y m,
      ({ text := "1", day := 1, date := "2024-02-01", disabled := false,
         isCurrentMonth := true } : IDayObject).date =
        formatDate ⟨y, m, 1, 0, 0⟩ ∧
      1 ≤ (1 : Nat) ∧ (1 : Nat) ≤ daysInMonth y m ∧
      ((true : Bool) = true → (y, m) = (2024, 2)) ∧
      ((true : Bool) = false → (y, m) = prevYM ⟨2024, 2, 1, 0, 0⟩ ∨
        (y, m) = nextYM ⟨2024, 2, 1, 0, 0⟩) :=
  ⟨by decide,
   claim_C6 ⟨2024, 2, 1, 0, 0⟩ true none none 0
     { text := "1", day := 1, date := "2024-02-01", disabled := false,
       isCurrentMonth := true }
     (by decide)⟩

/-- C10: the grid returned by `getMonthDays` does not depend on the
day-of-month of the reference datetime — two references agreeing on year,
month, hour and minute yield identical grids. -/
theorem claim_C10 (y : Int) (m : Nat) (d1 d2 hh mm : Nat) (dfd : Bool)
    (minD maxD : Option DateTime) (f : Nat) :
    getMonthDays ⟨y, m, d1, hh, mm⟩ dfd minD maxD f =
      getMonthDays ⟨y, m, d2, hh, mm⟩ dfd minD maxD f := by
  cases dfd with
  | false =>
    rw [getMonthDays_noFull_eq, getMonthDays_noFull_eq]
    rfl
  | true =>
    rw [getMonthDays_full_eq, getMonthDays_full_eq]
    rfl
